import Mathlib

/-!
Verification of the tiered read-path aggregation service
(`src/examples/python/performance-example.py`, class `AnalyticsService`).

Shallow embedding conventions:
- `datetime` values are modelled as `Int` milliseconds since the epoch
  (`datetime.utcnow()` at the moment a call starts is supplied by the
  environment as `Env.now`); `timedelta` comparisons become `Int`
  comparisons on millisecond differences.
- `datetime.isoformat()` is modelled by `toString` on the millisecond
  timestamp: both are injective renderings of the instant, which is all
  the cache key uses them for.
- Filter dictionaries are modelled as association lists
  `List (String × String)` in insertion order; Python dict iteration is
  insertion-ordered, and `json.dumps(..., sort_keys=True)` is modelled by
  sorting the association list by key (lexicographic, as for ASCII
  Python strings).
- The external collaborators (Redis, the SQL store, the mv_metadata
  freshness row) are modelled through an `Env` record: the store is a
  function `MetricQuery → Except String (List Row)` (an `.error` is a
  raised exception), Redis transport failures are the booleans
  `cacheGetFails` / `cacheSetFails`, and wall-clock durations observed by
  the two exit paths of `get_metric` are `cacheElapsed` / `elapsed`.
- `hashlib.md5(...).hexdigest()` is embedded as a full executable MD5
  over the UTF-8 bytes of the input (inputs here are ASCII, so the byte
  sequence is the list of character codes).
- Performed I/O is recorded as a trace of events (`Ev`), in program
  order: the Redis GET, semaphore acquisition and release, the SQL
  query, the Redis SETEX, and the mv_metadata freshness read.
-/

set_option maxRecDepth 20000

set_option maxHeartbeats 1000000

deriving instance DecidableEq for Except

/-- One aggregated row, as produced by the row-conversion loop at the end
of `_query_database` (the float fields are modelled as `Int`; their
values are opaque to every property proved here). -/
structure Row where
  period : String
  total_value : Int
  count : Int
  avg_value : Int
deriving DecidableEq

/-- `MetricQuery` dataclass (performance-example.py, lines 68-75). -/
structure MetricQuery where
  metric_type : String
  start_date : Int
  end_date : Int
  granularity : String
  filters : Option (List (String × String))
deriving DecidableEq

/-- `MetricResult` dataclass (lines 77-83); `data_freshness` defaults to
`None`. -/
structure MetricResult where
  data : List Row
  cached : Bool
  query_time_ms : Int
  data_freshness : Option Int := none
deriving DecidableEq

/-- `CacheStrategy` enum (lines 85-89). -/
inductive CacheStrategy where
  | hot
  | warm
  | cold
deriving DecidableEq, BEq

/-- `CACHE_TTL_SECONDS = 300` (line 64). -/
def CACHE_TTL_SECONDS : Int := 300

/-- `HOT_DATA_HOURS = 24` (line 65). -/
def HOT_DATA_HOURS : Int := 24

/-- Milliseconds in one hour, converting `timedelta(hours=...)`. -/
def msPerHour : Int := 3600000

/-- Milliseconds in one day, converting `timedelta(days=...)`. -/
def msPerDay : Int := 86400000

/-- `AnalyticsService._get_cache_strategy` (lines 180-194): the age of
the query is `utcnow() - start_date`; strictly under 24 hours is HOT,
otherwise strictly under 7 days is WARM, otherwise COLD. -/
def _get_cache_strategy (now start_date : Int) : CacheStrategy :=
  let age := now - start_date
  if age < HOT_DATA_HOURS * msPerHour then CacheStrategy.hot
  else if age < 7 * msPerDay then CacheStrategy.warm
  else CacheStrategy.cold

/-! ### MD5 (hashlib.md5, used by `_build_cache_key`)

A direct executable embedding of MD5 over a byte list, so that cache-key
digests are computed, not assumed. -/

/-- Truncation to 32 bits. -/
def u32 (x : Nat) : Nat := x % 4294967296

/-- 32-bit left rotation. -/
def rotl32 (x n : Nat) : Nat :=
  u32 (Nat.shiftLeft x n) ||| Nat.shiftRight (u32 x) (32 - n)

/-- 32-bit complement. -/
def not32 (x : Nat) : Nat := 4294967295 - u32 x

/-- The 64 MD5 sine-derived round constants. -/
def md5K : List Nat :=
  [3614090360, 3905402710, 606105819, 3250441966, 4118548399, 1200080426,
   2821735955, 4249261313, 1770035416, 2336552879, 4294925233, 2304563134,
   1804603682, 4254626195, 2792965006, 1236535329, 4129170786, 3225465664,
   643717713, 3921069994, 3593408605, 38016083, 3634488961, 3889429448,
   568446438, 3275163606, 4107603335, 1163531501, 2850285829, 4243563512,
   1735328473, 2368359562, 4294588738, 2272392833, 1839030562, 4259657740,
   2763975236, 1272893353, 4139469664, 3200236656, 681279174, 3936430074,
   3572445317, 76029189, 3654602809, 3873151461, 530742520, 3299628645,
   4096336452, 1126891415, 2878612391, 4237533241, 1700485571, 2399980690,
   4293915773, 2240044497, 1873313359, 4264355552, 2734768916, 1309151649,
   4149444226, 3174756917, 718787259, 3951481745]

/-- The 64 MD5 per-round left-rotation amounts. -/
def md5S : List Nat :=
  [7, 12, 17, 22, 7, 12, 17, 22, 7, 12, 17, 22, 7, 12, 17, 22,
   5, 9, 14, 20, 5, 9, 14, 20, 5, 9, 14, 20, 5, 9, 14, 20,
   4, 11, 16, 23, 4, 11, 16, 23, 4, 11, 16, 23, 4, 11, 16, 23,
   6, 10, 15, 21, 6, 10, 15, 21, 6, 10, 15, 21, 6, 10, 15, 21]

/-- MD5 round mixing function, by round index. -/
def md5F (i b c d : Nat) : Nat :=
  if i < 16 then (b &&& c) ||| (not32 b &&& d)
  else if i < 32 then (d &&& b) ||| (not32 d &&& c)
  else if i < 48 then b ^^^ c ^^^ d
  else c ^^^ (b ||| not32 d)

/-- MD5 message-word schedule, by round index. -/
def md5G (i : Nat) : Nat :=
  if i < 16 then i
  else if i < 32 then (5 * i + 1) % 16
  else if i < 48 then (3 * i + 5) % 16
  else (7 * i) % 16

/-- Assemble a little-endian 32-bit word from four bytes. -/
def leWord (b0 b1 b2 b3 : Nat) : Nat :=
  b0 + 256 * b1 + 65536 * b2 + 16777216 * b3

/-- The sixteen little-endian message words of one 64-byte block. -/
def blockWords (block : List Nat) : List Nat :=
  (List.range 16).map (fun j =>
    leWord (block.getD (4 * j) 0) (block.getD (4 * j + 1) 0)
      (block.getD (4 * j + 2) 0) (block.getD (4 * j + 3) 0))

/-- One MD5 round on the running state `(a, b, c, d)`. -/
def md5Round (m : List Nat) (st : Nat × Nat × Nat × Nat) (i : Nat) :
    Nat × Nat × Nat × Nat :=
  let a := st.1
  let b := st.2.1
  let c := st.2.2.1
  let d := st.2.2.2
  let f := u32 (md5F i b c d + a + md5K.getD i 0 + m.getD (md5G i) 0)
  (d, u32 (b + rotl32 f (md5S.getD i 0)), b, c)

/-- Compress one 64-byte block into the running MD5 state. -/
def md5Block (st : Nat × Nat × Nat × Nat) (block : List Nat) :
    Nat × Nat × Nat × Nat :=
  let r := (List.range 64).foldl (md5Round (blockWords block)) st
  (u32 (st.1 + r.1), u32 (st.2.1 + r.2.1), u32 (st.2.2.1 + r.2.2.1),
   u32 (st.2.2.2 + r.2.2.2))

/-- Split a byte list into 64-byte chunks; the first argument is a
structural recursion budget of at least the list length (each step
removes at least one element, so the budget is never exhausted when it
starts at the length). -/
def chunksAux : Nat → List Nat → List (List Nat)
  | _, [] => []
  | 0, _ :: _ => []
  | Nat.succ f, b :: rest =>
      (b :: rest).take 64 :: chunksAux f ((b :: rest).drop 64)

/-- Split a byte list into 64-byte chunks. -/
def chunksOf64 (l : List Nat) : List (List Nat) := chunksAux l.length l

/-- MD5 padding: a 0x80 byte, zeros to 56 mod 64, then the bit length as
eight little-endian bytes. -/
def md5Pad (msg : List Nat) : List Nat :=
  let bitLen := 8 * msg.length
  msg ++ [128] ++ List.replicate ((120 - (msg.length + 1) % 64) % 64) 0 ++
    (List.range 8).map (fun i => Nat.shiftRight bitLen (8 * i) % 256)

/-- The four final MD5 state words of a byte message. -/
def md5Words (msg : List Nat) : Nat × Nat × Nat × Nat :=
  (chunksOf64 (md5Pad msg)).foldl md5Block
    (1732584193, 4023233417, 2562383102, 271733878)

/-- Lowercase hex digit of a nibble. -/
def hexChar (n : Nat) : Char :=
  "0123456789abcdef".data.getD n (Char.ofNat 120)

/-- Two lowercase hex digits of a byte. -/
def byteHex (b : Nat) : List Char := [hexChar (b / 16), hexChar (b % 16)]

/-- The four bytes of a 32-bit word, little-endian. -/
def wordLEBytes (w : Nat) : List Nat :=
  [w % 256, Nat.shiftRight w 8 % 256, Nat.shiftRight w 16 % 256,
   Nat.shiftRight w 24 % 256]

/-- The 32 characters of the MD5 hex digest of a byte message. -/
def md5HexChars (msg : List Nat) : List Char :=
  let w := md5Words msg
  (([w.1, w.2.1, w.2.2.1, w.2.2.2].flatMap wordLEBytes).flatMap byteHex)

/-- `hashlib.md5(s.encode()).hexdigest()` for an ASCII string `s`:
UTF-8 encoding of ASCII is the list of character codes. -/
def md5_hexdigest (s : String) : String :=
  String.mk (md5HexChars (s.data.map Char.toNat))

/-! ### Cache key construction (`_build_cache_key`, lines 196-217) -/

/-- Lexicographic strict order on code-point lists: Python string `<`
for ASCII strings. -/
def lexLt : List Nat → List Nat → Bool
  | [], [] => false
  | [], _ :: _ => true
  | _ :: _, [] => false
  | a :: as, b :: bs =>
      if a < b then true else if b < a then false else lexLt as bs

/-- Python string comparison for ASCII strings, on code points. -/
def strLt (a b : String) : Bool :=
  lexLt (a.data.map Char.toNat) (b.data.map Char.toNat)

/-- Insert an entry into a key-sorted association list (keys in a Python
dict are unique, so ties never matter). -/
def insertByKey (p : String × String) :
    List (String × String) → List (String × String)
  | [] => [p]
  | q :: rest =>
      if strLt q.1 p.1 then q :: insertByKey p rest else p :: q :: rest

/-- Sort an association list by key, ascending (the effect of
`sort_keys=True` on an ASCII-keyed dict). -/
def sortByKey : List (String × String) → List (String × String)
  | [] => []
  | p :: rest => insertByKey p (sortByKey rest)

/-- `json.dumps(filters, sort_keys=True)` for a dict of ASCII strings
that need no JSON escaping: default separators are a comma-space between
items and a colon-space between key and value. -/
def json_dumps_sorted (fs : List (String × String)) : String :=
  "\x7b" ++
    String.intercalate ", "
      ((sortByKey fs).map
        (fun p => "\"" ++ p.1 ++ "\": \"" ++ p.2 ++ "\"")) ++
  "\x7d"

/-- `AnalyticsService._build_cache_key` (lines 196-217): the filter
digest is the first 8 hex characters of the MD5 of the canonical JSON of
the full filters dict when `query.filters` is truthy (not `None` and not
empty), and the empty string otherwise; no whitelist is applied. -/
def _build_cache_key (q : MetricQuery) : String :=
  let filter_hash :=
    match q.filters with
    | none => ""
    | some fs =>
        if fs.isEmpty then ""
        else String.mk ((md5HexChars
          ((json_dumps_sorted fs).data.map Char.toNat)).take 8)
  "metric:" ++ q.metric_type ++ ":" ++
    toString q.start_date ++ ":" ++
    toString q.end_date ++ ":" ++
    q.granularity ++ ":" ++
    filter_hash

/-! ### SQL construction (`_build_filter_clause`, lines 307-323, and the
query text of `_query_database`, lines 267-284) -/

/-- The whitelist `allowed_fields` of `_build_filter_clause` (line 316). -/
def allowed_fields : List String := ["user_id", "tenant_id", "event_type"]

/-- `AnalyticsService._build_filter_clause` (lines 307-323): empty for a
falsy filters dict; otherwise one `AND field = :field` clause per entry
whose field is whitelisted, joined by single spaces. Values appear only
as `:field` bind-parameter names, never as text. -/
def _build_filter_clause (filters : Option (List (String × String))) :
    String :=
  match filters with
  | none => ""
  | some fs =>
      if fs.isEmpty then ""
      else
        String.intercalate " "
          ((fs.filter (fun p => allowed_fields.contains p.1)).map
            (fun p => "AND " ++ p.1 ++ " = :" ++ p.1))

/-- The executable query text built by `_query_database` (lines 267-284),
with whitespace flattened: the view name interpolates `metric_type` and
the filter clause interpolates `_build_filter_clause`; everything else is
a bind parameter. -/
def build_sql (q : MetricQuery) : String :=
  let view_name := "mv_metrics_" ++ q.metric_type
  "SELECT date_trunc(:granularity, timestamp) as period, " ++
    "SUM(value) as total_value, COUNT(*) as count, AVG(value) as avg_value " ++
    "FROM " ++ view_name ++
    " WHERE timestamp >= :start_date AND timestamp < :end_date " ++
    _build_filter_clause q.filters ++
    " GROUP BY period ORDER BY period"

/-! ### The service state machine (`get_metric` and collaborators) -/

/-- One Redis entry: key, stored value (the JSON round-trip of a row list
is the identity, so the decoded value is stored), and absolute expiry in
milliseconds (SETEX at time `t` with `ttl` seconds expires at
`t + 1000 * ttl`). -/
def CacheState : Type := List (String × List Row × Int)

/-- I/O events of one `get_metric` call, in program order. -/
inductive Ev where
  | cacheGet (key : String)
  | cacheSet (key : String)
  | gateAcquire
  | gateRelease
  | dbQuery (sql : String)
  | metaQuery
deriving DecidableEq

/-- The external world of one call: the wall clock at entry, whether the
Redis transport fails on GET / on SETEX, the backing store (an `.error`
is a raised exception), the elapsed milliseconds observed on the
cache-hit exit path and on the store exit path, and the `mv_metadata`
last-refresh row (`none` when the row is absent). -/
structure Env where
  now : Int
  cacheGetFails : Bool
  cacheSetFails : Bool
  db : MetricQuery → Except String (List Row)
  cacheElapsed : Int
  elapsed : Int
  last_refresh : Option Int

/-- Redis GET semantics on the modelled store: the first entry with the
key, provided it has not expired. -/
def lookupCache : CacheState → String → Int → Option (List Row)
  | [], _, _ => none
  | (k, v, e) :: rest, key, now =>
      if k = key then (if now < e then some v else none)
      else lookupCache rest key now

/-- `AnalyticsService._get_from_cache` (lines 219-232): any transport
failure is caught and logged, degrading to `None`; otherwise a present,
unexpired key decodes to its stored row list (the stored JSON string is
never empty, so the `if data:` truthiness test succeeds whenever the key
is present). -/
def _get_from_cache (env : Env) (cs : CacheState) (key : String) :
    Option (List Row) :=
  if env.cacheGetFails then none
  else lookupCache cs key env.now

/-- `AnalyticsService._set_cache` (lines 234-250): a transport failure is
caught and logged and the call returns normally; on success SETEX
overwrites the key with expiry `now + 1000 * ttl`. -/
def _set_cache (env : Env) (cs : CacheState) (key : String)
    (data : List Row) (ttl : Int) : CacheState :=
  if env.cacheSetFails then cs
  else (key, data, env.now + ttl * 1000) :: cs.filter (fun p => p.1 ≠ key)

/-- `AnalyticsService._get_materialized_view_freshness` (lines 325-334):
the `mv_metadata` row when present, else `datetime.utcnow()`. -/
def _get_materialized_view_freshness (env : Env) : Int :=
  match env.last_refresh with
  | some t => t
  | none => env.now

/-- Lines 138-153 of `get_metric`: for a HOT or WARM strategy, read the
cache; `if cached_data:` is a Python truthiness test, so only a present
and NON-EMPTY row list produces the cached result (an empty cached list
falls through to the store path). -/
def cache_phase (env : Env) (cs : CacheState) (q : MetricQuery) :
    Option MetricResult :=
  let strategy := _get_cache_strategy env.now q.start_date
  if strategy = CacheStrategy.hot ∨ strategy = CacheStrategy.warm then
    match _get_from_cache env cs (_build_cache_key q) with
    | some d =>
        if d.isEmpty then none
        else some { data := d, cached := true,
                    query_time_ms := env.cacheElapsed }
    | none => none
  else none

/-- `AnalyticsService.get_metric` (lines 119-178). Returns the result
(`.error` is a raised store exception propagating out), the cache state
after the call, and the I/O trace. The semaphore is entered with
`async with`, so its release is emitted on the success path and on the
exception path alike; the cache write and the freshness read happen
after the gated section, on the success path only. -/
def get_metric (env : Env) (cs : CacheState) (q : MetricQuery) :
    Except String MetricResult × CacheState × List Ev :=
  let strategy := _get_cache_strategy env.now q.start_date
  let cache_key := _build_cache_key q
  let readEvs :=
    if strategy = CacheStrategy.hot ∨ strategy = CacheStrategy.warm then
      [Ev.cacheGet cache_key]
    else []
  match cache_phase env cs q with
  | some r => (Except.ok r, cs, readEvs)
  | none =>
      match env.db q with
      | Except.error e =>
          (Except.error e, cs,
           readEvs ++ [Ev.gateAcquire, Ev.dbQuery (build_sql q),
                       Ev.gateRelease])
      | Except.ok data =>
          let cs2 :=
            match strategy with
            | CacheStrategy.hot =>
                _set_cache env cs cache_key data CACHE_TTL_SECONDS
            | CacheStrategy.warm =>
                _set_cache env cs cache_key data (CACHE_TTL_SECONDS * 2)
            | CacheStrategy.cold => cs
          let writeEvs :=
            match strategy with
            | CacheStrategy.hot => [Ev.cacheSet cache_key]
            | CacheStrategy.warm => [Ev.cacheSet cache_key]
            | CacheStrategy.cold => []
          (Except.ok { data := data, cached := false,
                       query_time_ms := env.elapsed,
                       data_freshness :=
                         some (_get_materialized_view_freshness env) },
           cs2,
           readEvs ++ [Ev.gateAcquire, Ev.dbQuery (build_sql q),
                       Ev.gateRelease] ++ writeEvs ++ [Ev.metaQuery])

/-- The designated failed slot of `batch_get_metrics` (line 364):
`MetricResult(data=[], cached=False, query_time_ms=0)`. -/
def empty_result : MetricResult :=
  { data := [], cached := false, query_time_ms := 0 }

/-- `AnalyticsService.batch_get_metrics` (lines 336-369):
`asyncio.gather(..., return_exceptions=True)` evaluates every query and
captures each raised exception in its slot; the post-pass replaces a
captured exception by `empty_result`. Order is the input order and the
function is total: it never raises. Each concurrent task is modelled
against the shared environment and the cache state at entry. -/
def batch_get_metrics (env : Env) (cs : CacheState)
    (qs : List MetricQuery) : List MetricResult :=
  let results := qs.map (fun q => (get_metric env cs q).1)
  results.map (fun r =>
    match r with
    | Except.error _ => empty_result
    | Except.ok r => r)

/-! ### The concurrency gate, with waiting made explicit

`get_metric` enters the semaphore with a bare `async with
self._query_semaphore:` (line 156). `asyncio.Semaphore.acquire` has no
timeout: a caller that finds no free permit suspends until one is
released. `waitGate` makes that suspension explicit: `avail t` says
whether a permit is free at wait-tick `t`, and the acquisition scans
ticks until a permit appears or the observation budget `fuel` runs out —
in which case the call is still suspended (`pending`), which is exactly
what the code does, since it has no timeout branch. -/

/-- Scan for a free permit from tick `t` with observation budget `fuel`. -/
def waitGate (avail : Nat → Bool) : Nat → Nat → Option Nat
  | 0, _ => none
  | Nat.succ fuel, t => if avail t then some t else waitGate avail fuel (t + 1)

/-- Outcome of a `get_metric` call observed for a bounded number of
gate-wait ticks. `capacityExceeded` is the error kind named by the spec;
it is listed so that its absence from the code can be stated. -/
inductive GatedOutcome where
  | pending
  | ok (r : MetricResult)
  | storeError (e : String)
  | capacityExceeded
deriving DecidableEq

/-- `get_metric` with the semaphore wait explicit: the cache phase
(lines 138-153) is not gated; a cache miss then waits for a permit with
no timeout, and only after acquisition does the store query run. -/
def get_metric_gated (env : Env) (cs : CacheState) (q : MetricQuery)
    (avail : Nat → Bool) (fuel : Nat) : GatedOutcome :=
  match cache_phase env cs q with
  | some r => GatedOutcome.ok r
  | none =>
      match waitGate avail fuel 0 with
      | none => GatedOutcome.pending
      | some _ =>
          match env.db q with
          | Except.error e => GatedOutcome.storeError e
          | Except.ok data =>
              GatedOutcome.ok
                { data := data, cached := false,
                  query_time_ms := env.elapsed,
                  data_freshness :=
                    some (_get_materialized_view_freshness env) }

/-! ### Trace predicates -/

/-- Whether an event is the store query. -/
def isDbQuery : Ev → Bool
  | Ev.dbQuery _ => true
  | _ => false

/-- Whether an event is the Redis GET. -/
def isCacheGet : Ev → Bool
  | Ev.cacheGet _ => true
  | _ => false

/-- Whether an event is a semaphore acquisition. -/
def isAcquire : Ev → Bool
  | Ev.gateAcquire => true
  | _ => false

/-- Whether an event is a semaphore release. -/
def isRelease : Ev → Bool
  | Ev.gateRelease => true
  | _ => false

/-- Replay a trace against a semaphore permit counter. -/
def semAfter (n : Int) (tr : List Ev) : Int :=
  tr.foldl
    (fun n e =>
      match e with
      | Ev.gateAcquire => n - 1
      | Ev.gateRelease => n + 1
      | _ => n) n

/-! ### Concrete scenario inputs for witnesses and counterexamples -/

/-- A fixed reference instant (milliseconds since the epoch). -/
def T0 : Int := 1700000000000

/-- One concrete aggregated row. -/
def rowA : Row :=
  { period := "2023-11-14T22:00:00", total_value := 42, count := 10,
    avg_value := 4 }

/-- A HOT query: its range starts one hour before `T0`. -/
def qHot : MetricQuery :=
  { metric_type := "active_users", start_date := T0 - 3600000,
    end_date := T0, granularity := "hour", filters := none }

/-- A HOT query for a metric the backing store rejects. -/
def qBadMetric : MetricQuery :=
  { metric_type := "bad_metric", start_date := T0 - 3600000,
    end_date := T0, granularity := "hour", filters := none }

/-- A COLD query: its range starts twenty days before `T0`. -/
def qCold : MetricQuery :=
  { metric_type := "page_views", start_date := T0 - 20 * 86400000,
    end_date := T0, granularity := "day", filters := none }

/-- A malformed query: `start_date` is strictly after `end_date`, and the
metric type names no known source. -/
def qMalformed : MetricQuery :=
  { metric_type := "no_such_metric", start_date := T0,
    end_date := T0 - 3600000, granularity := "hour", filters := none }

/-- A healthy environment at `T0`: the cache transport works, and the
store answers every metric except `bad_metric` with one row. -/
def envBase : Env :=
  { now := T0, cacheGetFails := false, cacheSetFails := false,
    db := fun q =>
      if q.metric_type = "bad_metric" then
        Except.error "relation mv_metrics_bad_metric does not exist"
      else Except.ok [rowA],
    cacheElapsed := 8, elapsed := 145, last_refresh := some (T0 - 60000) }

/-- The same world one minute later (inside every TTL window). -/
def envLater : Env := { envBase with now := T0 + 60000 }

/-- A world in which both cache operations fail at the transport. -/
def envCacheDown : Env :=
  { envBase with cacheGetFails := true, cacheSetFails := true }

/-- A healthy world whose store returns an empty row list. -/
def envEmptyData : Env := { envBase with db := fun _ => Except.ok [] }

/-- The empty-data world one minute later. -/
def envEmptyLater : Env := { envEmptyData with now := T0 + 60000 }

/-- A world in which every store query raises after 50 ms of work. -/
def envDbDown : Env :=
  { now := T0, cacheGetFails := false, cacheSetFails := false,
    db := fun _ => Except.error "connection timeout",
    cacheElapsed := 8, elapsed := 50, last_refresh := none }

/-- The cache-key query carrying one whitelisted and one unlisted filter. -/
def qTwoFilters : MetricQuery :=
  { metric_type := "active_users", start_date := 1000, end_date := 2000,
    granularity := "hour", filters := some [("tenant_id", "7"), ("session_id", "abc")] }

/-- The same query with the unlisted filter removed. -/
def qOneFilter : MetricQuery :=
  { metric_type := "active_users", start_date := 1000, end_date := 2000,
    granularity := "hour", filters := some [("tenant_id", "7")] }

/-! ## Helper lemmas -/

/-- The MD5 hex digest always has 32 characters. -/
theorem md5HexChars_length (msg : List Nat) : (md5HexChars msg).length = 32 := by
  unfold md5HexChars
  simp [wordLEBytes, byteHex]

/-- A gate that never has a free permit is never acquired, whatever the
observation budget. -/
theorem waitGate_never_available (fuel t : Nat) :
    waitGate (fun _ => false) fuel t = none := by
  induction fuel generalizing t with
  | zero => rfl
  | succ f ih => simp [waitGate, ih]

/-- The whitelisted clause list of `_build_filter_clause` depends only on
the field names. -/
theorem clause_entries_keys (fs : List (String × String)) :
    (fs.filter (fun p => allowed_fields.contains p.1)).map
        (fun p => "AND " ++ p.1 ++ " = :" ++ p.1) =
      ((fs.map Prod.fst).filter (fun k => allowed_fields.contains k)).map
        (fun k => "AND " ++ k ++ " = :" ++ k) := by
  induction fs with
  | nil => rfl
  | cons p rest ih =>
      by_cases hm : p.1 ∈ allowed_fields <;>
        simp [List.filter_cons, hm] <;> simpa using ih

/-- Normal form of `_build_filter_clause` on a present filters dict: the
space-join of one `AND field = :field` clause per whitelisted entry, in
order (for an empty dict both sides are the empty string, so no case
split on emptiness is needed). -/
theorem clause_eq (fs : List (String × String)) :
    _build_filter_clause (some fs) =
      String.intercalate " "
        ((fs.filter (fun p => allowed_fields.contains p.1)).map
          (fun p => "AND " ++ p.1 ++ " = :" ++ p.1)) := by
  cases fs <;> rfl

/-! ## Claim theorems -/

/-- Claim C2: `_get_cache_strategy` is a total, deterministic function of
the query age `now - start_date`: every age strictly under 24 hours is
HOT, every age from 24 hours (inclusive) up to 7 days (exclusive) is
WARM — in particular age exactly 24 hours is WARM, not HOT — and every
age of at least 7 days is COLD. -/
theorem c2_cache_strategy_thresholds :
    ∀ now start_date : Int,
      (now - start_date < HOT_DATA_HOURS * msPerHour →
        _get_cache_strategy now start_date = CacheStrategy.hot) ∧
      (HOT_DATA_HOURS * msPerHour ≤ now - start_date →
        now - start_date < 7 * msPerDay →
        _get_cache_strategy now start_date = CacheStrategy.warm) ∧
      (7 * msPerDay ≤ now - start_date →
        _get_cache_strategy now start_date = CacheStrategy.cold) ∧
      (∀ now2 start2 : Int, now - start_date = now2 - start2 →
        _get_cache_strategy now start_date = _get_cache_strategy now2 start2) := by
  intro now start_date
  refine ⟨fun h => ?_, fun h1 h2 => ?_, fun h => ?_, fun n2 s2 h => ?_⟩
  · simp only [_get_cache_strategy]
    rw [if_pos h]
  · simp only [_get_cache_strategy, HOT_DATA_HOURS, msPerHour, msPerDay] at h1 h2 ⊢
    rw [if_neg (by omega), if_pos (by omega)]
  · simp only [_get_cache_strategy, HOT_DATA_HOURS, msPerHour, msPerDay] at h ⊢
    rw [if_neg (by omega), if_neg (by omega)]
  · simp only [_get_cache_strategy]
    rw [h]

/-- Witness for C2 at concrete ages: age one millisecond under 24 hours
is HOT, age exactly 24 hours is WARM, age exactly 7 days is COLD, and
the strategy depends on the age alone. -/
theorem c2_witness :
    _get_cache_strategy 86399999 0 = CacheStrategy.hot ∧
    _get_cache_strategy 86400000 0 = CacheStrategy.warm ∧
    _get_cache_strategy 604800000 0 = CacheStrategy.cold ∧
    _get_cache_strategy 100 0 = _get_cache_strategy 1100 1000 :=
  ⟨(c2_cache_strategy_thresholds 86399999 0).1 (by decide),
   (c2_cache_strategy_thresholds 86400000 0).2.1 (by decide) (by decide),
   (c2_cache_strategy_thresholds 604800000 0).2.2.1 (by decide),
   (c2_cache_strategy_thresholds 100 0).2.2.2 1100 1000 (by decide)⟩

/-- Counterexample to claim C4: `_build_cache_key` does NOT drop
unlisted filter fields before digesting. The query whose filters are
`tenant_id=7` (whitelisted) plus `session_id=abc` (NOT whitelisted) gets
a different cache key from the same query with the unlisted filter
removed: the MD5 digests of the two canonical filter serializations
differ. -/
theorem c4_counterexample :
    allowed_fields.contains "session_id" = false ∧
    _build_cache_key qTwoFilters ≠ _build_cache_key qOneFilter := by
  constructor
  · decide
  · decide

/-- Claim C4 as amended: `_build_cache_key` applies no whitelist at all —
every filter entry participates in the digest. In particular a query
whose only filter entry has an unlisted field name gets a different
cache key from the same query with that filter removed: the filter
digest goes from an 8-character token to the empty string. -/
theorem c4_amended_no_whitelist_in_key :
    ∀ (mt : String) (s e : Int) (g f v : String),
      allowed_fields.contains f = false →
      _build_cache_key ⟨mt, s, e, g, some [(f, v)]⟩ ≠
        _build_cache_key ⟨mt, s, e, g, none⟩ := by
  intro mt s e g f v hf h
  have h1 := congrArg String.length h
  simp only [_build_cache_key, List.isEmpty_cons, Bool.false_eq_true,
    if_false, String.length_append] at h1
  rw [show (String.mk ((md5HexChars
        ((json_dumps_sorted [(f, v)]).data.map Char.toNat)).take 8)).length
      = 8 by simp [String.length, md5HexChars_length]] at h1
  simp only [show ("" : String).length = 0 from rfl] at h1
  omega

/-- Witness for the amended C4 at a concrete input: the unlisted field
`session_id` as the only filter changes the cache key relative to the
filterless query. -/
theorem c4_amended_witness :
    allowed_fields.contains "session_id" = false ∧
    _build_cache_key ⟨"active_users", 1000, 2000, "hour", some [("session_id", "abc")]⟩ ≠
      _build_cache_key ⟨"active_users", 1000, 2000, "hour", none⟩ :=
  ⟨by decide,
   c4_amended_no_whitelist_in_key "active_users" 1000 2000 "hour"
     "session_id" "abc" (by decide)⟩

/-- Claim C8: the filter clause interpolated into the store query text
mentions only whitelisted field names. For every filters dict and every
unlisted field at ANY position in it, the entry is ignored: removing it
changes neither the clause nor the whole query text; the clause equals
the clause of the whitelist-restricted dict; and no caller-supplied
filter value ever reaches either text, since the clause depends only on
the field names. -/
theorem c8_filter_clause_whitelist :
    (∀ (fs1 fs2 : List (String × String)) (f v : String),
        allowed_fields.contains f = false →
        _build_filter_clause (some (fs1 ++ (f, v) :: fs2)) =
          _build_filter_clause (some (fs1 ++ fs2))) ∧
    (∀ fs : List (String × String),
        _build_filter_clause (some fs) =
          _build_filter_clause
            (some (fs.filter (fun p => allowed_fields.contains p.1)))) ∧
    (∀ fs gs : List (String × String),
        fs.map Prod.fst = gs.map Prod.fst →
        _build_filter_clause (some fs) = _build_filter_clause (some gs)) ∧
    (∀ (q : MetricQuery) (fs1 fs2 : List (String × String)) (f v : String),
        allowed_fields.contains f = false →
        build_sql { q with filters := some (fs1 ++ (f, v) :: fs2) } =
          build_sql { q with filters := some (fs1 ++ fs2) }) := by
  have drop_unlisted : ∀ (fs1 fs2 : List (String × String)) (f v : String),
      allowed_fields.contains f = false →
      _build_filter_clause (some (fs1 ++ (f, v) :: fs2)) =
        _build_filter_clause (some (fs1 ++ fs2)) := by
    intro fs1 fs2 f v hf
    have hm : f ∉ allowed_fields := by simpa using hf
    rw [clause_eq, clause_eq]
    simp [List.filter_append, List.filter_cons, hm]
  refine ⟨drop_unlisted, ?_, ?_, ?_⟩
  · intro fs
    rw [clause_eq, clause_eq]
    simp [List.filter_filter]
  · intro fs gs h
    rw [clause_eq, clause_eq, clause_entries_keys, clause_entries_keys, h]
  · intro q fs1 fs2 f v hf
    simp only [build_sql]
    rw [drop_unlisted fs1 fs2 f v hf]

/-- Witness for C8 at a concrete input that places the unlisted entry
AFTER a whitelisted one: the `session_id` entry following `user_id`
leaves the filter clause unchanged. -/
theorem c8_witness :
    _build_filter_clause (some [("user_id", "u1"), ("session_id", "x")]) =
      _build_filter_clause (some [("user_id", "u1")]) :=
  c8_filter_clause_whitelist.1 [("user_id", "u1")] [] "session_id" "x"
    (by decide)

/-- Claim C9: on every exit path of `get_metric` — cache hit, store
success, and store exception — semaphore acquisitions and releases in
the trace are exactly paired (`async with` releases on exception too),
so replaying any call trace against a permit counter returns it to its
initial value. -/
theorem c9_gate_release_paired :
    ∀ (env : Env) (cs : CacheState) (q : MetricQuery),
      (get_metric env cs q).2.2.countP isAcquire =
        (get_metric env cs q).2.2.countP isRelease ∧
      ∀ n : Int, semAfter n (get_metric env cs q).2.2 = n := by
  intro env cs q
  rcases hc : cache_phase env cs q with _ | r <;>
    rcases hdb : env.db q with e | data <;>
    rcases hs : _get_cache_strategy env.now q.start_date <;>
    refine ⟨?_, fun n => ?_⟩ <;>
    simp [get_metric, hc, hdb, hs, semAfter, isAcquire, isRelease,
      List.countP_cons, List.countP_append, List.countP_nil,
      List.foldl_cons, List.foldl_nil, List.foldl_append]

/-- Claim C3: cache faults never propagate. A failing Redis GET returns
the no-value result (cache miss), a failing Redis SETEX returns normally
leaving the state unchanged, and `get_metric` still succeeds with the
store's data when both cache operations fail. -/
theorem c3_cache_faults_never_propagate :
    (∀ (env : Env) (cs : CacheState) (key : String),
        env.cacheGetFails = true → _get_from_cache env cs key = none) ∧
    (∀ (env : Env) (cs : CacheState) (key : String) (data : List Row)
        (ttl : Int),
        env.cacheSetFails = true → _set_cache env cs key data ttl = cs) ∧
    (∀ (env : Env) (cs : CacheState) (q : MetricQuery) (d : List Row),
        env.cacheGetFails = true → env.db q = Except.ok d →
        (get_metric env cs q).1 = Except.ok
          { data := d, cached := false, query_time_ms := env.elapsed,
            data_freshness := some (_get_materialized_view_freshness env) }) := by
  refine ⟨?_, ?_, ?_⟩
  · intro env cs key hg
    simp [_get_from_cache, hg]
  · intro env cs key data ttl hs
    simp [_set_cache, hs]
  · intro env cs q d hg hdb
    have hcp : cache_phase env cs q = none := by
      simp [cache_phase, _get_from_cache, hg]
    simp [get_metric, hcp, hdb]

/-- Witness for C3: with both cache transports down and a healthy store,
`get_metric` still returns the store's row. -/
theorem c3_witness :
    (get_metric envCacheDown [] qHot).1 = Except.ok
      { data := [rowA], cached := false, query_time_ms := 145,
        data_freshness := some (T0 - 60000) } :=
  c3_cache_faults_never_propagate.2.2 envCacheDown [] qHot [rowA] rfl rfl

/-- Claim C1: `batch_get_metrics` always returns a result sequence of
the same length as the input, in input order, one result per query: the
slot of a query whose evaluation raised holds the designated
empty/failed result (`data` empty, `cached=false`), and every other slot
holds that query's real result; the batch itself is total and never
raises. -/
theorem c1_batch_shape_and_slots :
    ∀ (env : Env) (cs : CacheState) (qs : List MetricQuery),
      (batch_get_metrics env cs qs).length = qs.length ∧
      (∀ (i : Nat) (q : MetricQuery), qs[i]? = some q →
        (batch_get_metrics env cs qs)[i]? = some
          (match (get_metric env cs q).1 with
           | Except.ok r => r
           | Except.error _ => empty_result)) := by
  intro env cs qs
  constructor
  · simp [batch_get_metrics]
  · intro i q hq
    simp [batch_get_metrics, List.getElem?_map, hq]
    rcases (get_metric env cs q).1 with e | r <;> rfl

/-- Witness for C1, mirroring the spec's three-element scenario: the
middle query fails at the store, its slot is the designated empty
result, and the neighbouring slots carry their real data. -/
theorem c1_witness :
    (batch_get_metrics envBase [] [qHot, qBadMetric, qCold])[1]? =
      some empty_result ∧
    (batch_get_metrics envBase [] [qHot, qBadMetric, qCold])[0]? =
      some { data := [rowA], cached := false, query_time_ms := 145,
             data_freshness := some (T0 - 60000) } := by
  constructor
  · have h := (c1_batch_shape_and_slots envBase [] [qHot, qBadMetric, qCold]).2
      1 qBadMetric rfl
    rw [h]
    rfl
  · have h := (c1_batch_shape_and_slots envBase [] [qHot, qBadMetric, qCold]).2
      0 qHot rfl
    rw [h]
    rfl

/-- Counterexample to claim C10: a failed batch slot's `query_time_ms`
does not reflect the elapsed time until the failure was known — it is
the hard-coded constant 0. In `envDbDown` the store raises after 50 ms
of end-to-end work (`Env.elapsed`, the duration the code would have
measured at the point the exception was known), yet the slot reports 0. -/
theorem c10_counterexample :
    batch_get_metrics envDbDown [] [qHot] = [empty_result] ∧
    empty_result.query_time_ms = 0 ∧
    envDbDown.elapsed = 50 ∧
    empty_result.query_time_ms ≠ envDbDown.elapsed := by
  refine ⟨by decide, rfl, rfl, by decide⟩

/-- Claim C10 as amended: the failed slot of `batch_get_metrics` is
always `MetricResult(data=[], cached=False, query_time_ms=0)` — the
reported query time of a failed slot is the constant 0, regardless of
how long the failing evaluation ran. -/
theorem c10_amended_failed_slot_time_zero :
    ∀ (env : Env) (cs : CacheState) (qs : List MetricQuery) (i : Nat)
      (q : MetricQuery) (e : String),
      qs[i]? = some q →
      (get_metric env cs q).1 = Except.error e →
      (batch_get_metrics env cs qs)[i]? = some empty_result ∧
      empty_result.query_time_ms = 0 := by
  intro env cs qs i q e hq herr
  refine ⟨?_, rfl⟩
  simp [batch_get_metrics, List.getElem?_map, hq, herr]

/-- Witness for the amended C10 at the concrete failing batch. -/
theorem c10_witness :
    (batch_get_metrics envDbDown [] [qHot])[0]? = some empty_result :=
  (c10_amended_failed_slot_time_zero envDbDown [] [qHot] 0 qHot
    "connection timeout" rfl (by decide)).1

/-- Counterexample to claim C6: `get_metric` performs no validation. The
query `qMalformed` has `start_date` strictly after `end_date` and an
unknown metric type, yet the call is not rejected: it returns a normal
successful result and performs both a cache read and a store query (I/O
happens, and no InvalidQuery error exists anywhere on the path). -/
theorem c6_counterexample :
    qMalformed.end_date < qMalformed.start_date ∧
    (get_metric envBase [] qMalformed).1 = Except.ok
      { data := [rowA], cached := false, query_time_ms := 145,
        data_freshness := some (T0 - 60000) } ∧
    (get_metric envBase [] qMalformed).2.2.countP isCacheGet = 1 ∧
    (get_metric envBase [] qMalformed).2.2.countP isDbQuery = 1 := by
  refine ⟨by decide, by decide, by decide, by decide⟩

/-- Claim C6 as amended: `get_metric` never rejects a query. A query
with a malformed range (`start_date ≥ end_date`) or an unknown metric
type is processed exactly like any other: on a cache miss the store is
queried (one `dbQuery` event) and its answer — data or raised error — is
returned unchanged; an unknown metric type can fail only at the store
itself, after the I/O has happened. -/
theorem c6_amended_no_validation :
    (∀ (env : Env) (cs : CacheState) (q : MetricQuery) (d : List Row),
        q.end_date ≤ q.start_date →
        cache_phase env cs q = none →
        env.db q = Except.ok d →
        (get_metric env cs q).1 = Except.ok
          { data := d, cached := false, query_time_ms := env.elapsed,
            data_freshness := some (_get_materialized_view_freshness env) } ∧
        (get_metric env cs q).2.2.countP isDbQuery = 1) ∧
    (∀ (env : Env) (cs : CacheState) (q : MetricQuery) (e : String),
        cache_phase env cs q = none →
        env.db q = Except.error e →
        (get_metric env cs q).1 = Except.error e ∧
        (get_metric env cs q).2.2.countP isDbQuery = 1) := by
  constructor
  · intro env cs q d _ hcp hdb
    constructor
    · simp [get_metric, hcp, hdb]
    · rcases hs : _get_cache_strategy env.now q.start_date <;>
        simp [get_metric, hcp, hdb, hs, isDbQuery,
          List.countP_cons, List.countP_append, List.countP_nil]
  · intro env cs q e hcp hdb
    constructor
    · simp [get_metric, hcp, hdb]
    · rcases hs : _get_cache_strategy env.now q.start_date <;>
        simp [get_metric, hcp, hdb, hs, isDbQuery,
          List.countP_cons, List.countP_append, List.countP_nil]

/-- Witness for the amended C6 at the concrete malformed query. -/
theorem c6_witness :
    (get_metric envBase [] qMalformed).1 = Except.ok
      { data := [rowA], cached := false, query_time_ms := 145,
        data_freshness := some (T0 - 60000) } :=
  (c6_amended_no_validation.1 envBase [] qMalformed [rowA]
    (by decide) rfl rfl).1

/-- Counterexample to claim C5: because the cache-hit test `if
cached_data:` is a Python truthiness test, a HOT query whose data is the
EMPTY row list never returns `cached=true`. The first call stores the
empty list in the cache (the later lookup finds it), the second call one
minute later — well inside the 300-second TTL — still reports
`cached := false` (it fell through to the store again). -/
theorem c5_counterexample :
    (get_metric envEmptyData [] qHot).1 = Except.ok
      { data := [], cached := false, query_time_ms := 145,
        data_freshness := some (T0 - 60000) } ∧
    lookupCache (get_metric envEmptyData [] qHot).2.1 (_build_cache_key qHot)
      envEmptyLater.now = some [] ∧
    envEmptyLater.now < envEmptyData.now + CACHE_TTL_SECONDS * 1000 ∧
    (get_metric envEmptyLater (get_metric envEmptyData [] qHot).2.1 qHot).1 =
      Except.ok
        { data := [], cached := false, query_time_ms := 145,
          data_freshness := some (T0 - 60000) } := by
  refine ⟨by decide, by decide, by decide, by decide⟩

/-- Claim C5 as amended: for a HOT query whose first call misses the
cache and whose store data is NON-EMPTY, when the cache write succeeds,
every repeated call within the TTL window (and still classified HOT)
returns `cached=true` with data identical to the first call's, and
leaves the cache state unchanged — so all later in-window calls behave
identically. The non-emptiness restriction is forced by the truthiness
bug exhibited in the counterexample. -/
theorem c5_amended_idempotent_nonempty :
    ∀ (env1 env2 : Env) (cs : CacheState) (q : MetricQuery) (d : List Row),
      _get_cache_strategy env1.now q.start_date = CacheStrategy.hot →
      _get_cache_strategy env2.now q.start_date = CacheStrategy.hot →
      cache_phase env1 cs q = none →
      env1.db q = Except.ok d →
      d ≠ [] →
      env1.cacheSetFails = false →
      env2.cacheGetFails = false →
      env2.now < env1.now + CACHE_TTL_SECONDS * 1000 →
      (get_metric env1 cs q).1 = Except.ok
        { data := d, cached := false, query_time_ms := env1.elapsed,
          data_freshness := some (_get_materialized_view_freshness env1) } ∧
      (get_metric env2 (get_metric env1 cs q).2.1 q).1 = Except.ok
        { data := d, cached := true, query_time_ms := env2.cacheElapsed,
          data_freshness := none } ∧
      (get_metric env2 (get_metric env1 cs q).2.1 q).2.1 =
        (get_metric env1 cs q).2.1 := by
  intro env1 env2 cs q d hs1 hs2 hmiss hdb hd hset hget httl
  have hcs1 : (get_metric env1 cs q).2.1 =
      (_build_cache_key q, d, env1.now + CACHE_TTL_SECONDS * 1000) ::
        cs.filter (fun p => p.1 ≠ _build_cache_key q) := by
    simp [get_metric, hmiss, hdb, hs1, _set_cache, hset]
  have hhead : ∀ rest : CacheState,
      lookupCache
        ((_build_cache_key q, d, env1.now + CACHE_TTL_SECONDS * 1000) :: rest)
        (_build_cache_key q) env2.now = some d := by
    intro rest
    simp [lookupCache, httl]
  have hhit : cache_phase env2 ((get_metric env1 cs q).2.1) q = some
      { data := d, cached := true, query_time_ms := env2.cacheElapsed } := by
    rw [hcs1]
    simp [cache_phase, hs2, _get_from_cache, hget, hhead, hd]
  set X := (get_metric env1 cs q).2.1 with hX
  refine ⟨?_, ?_, ?_⟩
  · simp [get_metric, hmiss, hdb, hs1]
  · simp [get_metric, hhit]
  · simp [get_metric, hhit]

/-- Witness for the amended C5: the concrete HOT query, first served by
the store at `T0` and again one minute later, returns the cached row
with `cached=true` on the second call. -/
theorem c5_witness :
    (get_metric envLater (get_metric envBase [] qHot).2.1 qHot).1 =
      Except.ok { data := [rowA], cached := true, query_time_ms := 8,
                  data_freshness := none } :=
  (c5_amended_idempotent_nonempty envBase envLater [] qHot [rowA]
    (by decide) (by decide) rfl rfl (by decide) rfl rfl (by decide)).2.1

/-- Counterexample to claim C7: gate acquisition does not time out. For
the concrete cache-missing query `qCold` and a gate that never has a free
permit, there is NO bound after which the call has failed with a
CapacityExceeded error — at every observation budget the call is still
suspended in the untimed `asyncio.Semaphore.acquire`. -/
theorem c7_counterexample :
    ¬ ∃ B : Nat, ∀ fuel : Nat, B ≤ fuel →
        get_metric_gated envBase [] qCold (fun _ => false) fuel =
          GatedOutcome.capacityExceeded := by
  rintro ⟨B, h⟩
  have h2 := h B le_rfl
  have hp : get_metric_gated envBase [] qCold (fun _ => false) B =
      GatedOutcome.pending := by
    simp [get_metric_gated, waitGate_never_available,
      show cache_phase envBase [] qCold = none from rfl]
  rw [hp] at h2
  exact GatedOutcome.noConfusion h2

/-- Claim C7 as amended: the concurrency-gate acquisition in
`get_metric` has no timeout and no distinct capacity error: no execution
of the call — under any permit schedule and any observation budget —
ever produces a CapacityExceeded outcome, and a call that must wait on a
never-available gate remains suspended at every observation budget
instead of failing. -/
theorem c7_amended_gate_never_times_out :
    (∀ (env : Env) (cs : CacheState) (q : MetricQuery) (avail : Nat → Bool)
        (fuel : Nat),
        get_metric_gated env cs q avail fuel ≠ GatedOutcome.capacityExceeded) ∧
    (∀ (env : Env) (cs : CacheState) (q : MetricQuery) (fuel : Nat),
        cache_phase env cs q = none →
        get_metric_gated env cs q (fun _ => false) fuel =
          GatedOutcome.pending) := by
  constructor
  · intro env cs q avail fuel
    rcases hc : cache_phase env cs q with _ | r
    · rcases hw : waitGate avail fuel 0 with _ | t
      · simp [get_metric_gated, hc, hw]
      · rcases hdb : env.db q with e | dta <;>
          simp [get_metric_gated, hc, hw, hdb]
    · simp [get_metric_gated, hc]
  · intro env cs q fuel hc
    simp [get_metric_gated, hc, waitGate_never_available]

/-- Witness for the amended C7: with the gate never available, the
concrete cold call is still pending after a thousand observed ticks. -/
theorem c7_witness :
    get_metric_gated envBase [] qCold (fun _ => false) 1000 =
      GatedOutcome.pending :=
  c7_amended_gate_never_times_out.2 envBase [] qCold 1000 rfl
